import Mathlib

/-!
Verification of the AOI drawing application (`src/streamlit_app.py`).

The program is a single linear script: `load_gdf` loads a persisted
collection from one of three files (GeoPackage, GeoJSON, Parquet, in that
preference order) or creates an empty GeoDataFrame; each render takes the
last entry of the drawing buffer, classifies its geometry (empty /
invalid / valid), and on an explicit save appends one record to the
session GeoDataFrame and rewrites all three files; a viewer block then
renders an attribute table and three download payloads.

Shallow embedding choices:
* A geometry is abstracted by the two shapely predicates the script
  consults (`is_empty`, `is_valid`) together with its coordinate data.
* A GeoDataFrame is a list of records plus an optional CRS string.
* The disk is a record of three optional file contents; the geopandas
  serializers (`to_file`, `to_parquet`, `read_file`, `read_parquet`,
  `to_json`) are modelled as faithful: writing stores the collection
  value, reading returns it.  File writes may fail, modelled by boolean
  failure flags; a failing write raises, aborting the rest of the handler.
* One Streamlit rerun is the function `render`, taking the widget inputs
  (drawing buffer, name box, save button, ambient UTC time) and the
  current state, returning the next state and the user-visible message.
-/

/-- A geometry as the script observes it: shapely's `is_empty` and
`is_valid` predicates plus the raw coordinates from the drawn GeoJSON. -/
structure Geometry where
  is_empty : Bool
  is_valid : Bool
  coords : List (Int × Int)
deriving DecidableEq

/-- One AOI record: `name`, `timestamp` (UTC capture time, modelled as a
natural number), `geometry` — the schema of the GeoDataFrame. -/
structure AOIRecord where
  name : String
  timestamp : Nat
  geometry : Geometry
deriving DecidableEq

/-- The in-memory collection: an ordered list of rows plus the coordinate
reference system, mirroring a `geopandas.GeoDataFrame`. -/
structure GeoDataFrame where
  rows : List AOIRecord
  crs : Option String
deriving DecidableEq

/-- The empty GeoDataFrame built in the `else` branch of `load_gdf`:
no rows, schema `name`/`timestamp`/`geometry`, CRS pre-set to EPSG:4326. -/
def emptyGdf : GeoDataFrame :=
  { rows := [], crs := some "EPSG:4326" }

/-- On-disk state: contents of `aois.gpkg`, `aois.geojson`,
`aois.parquet`; `none` means the file does not exist. -/
structure Disk where
  gpkg : Option GeoDataFrame
  geojson : Option GeoDataFrame
  parquet : Option GeoDataFrame
deriving DecidableEq

/-- A directory with none of the three files (first-run state). -/
def emptyDisk : Disk :=
  { gpkg := none, geojson := none, parquet := none }

/-- `load_gdf`: try `aois.gpkg`, then `aois.geojson`, then
`aois.parquet`; if none exists, return the empty GeoDataFrame with the
declared schema and CRS. -/
def load_gdf (d : Disk) : GeoDataFrame :=
  match d.gpkg with
  | some g => g
  | none =>
    match d.geojson with
    | some g => g
    | none =>
      match d.parquet with
      | some g => g
      | none => emptyGdf

/-- The three outcomes of the geometry checks at lines 117-121. -/
inductive Validity where
  | Empty
  | SelfInvalid
  | Valid
deriving DecidableEq

/-- The validity classification:
`if geom.is_empty: ... elif not geom.is_valid: ... else: ...`. -/
def classify (g : Geometry) : Validity :=
  if g.is_empty then Validity.Empty
  else if !g.is_valid then Validity.SelfInvalid
  else Validity.Valid

/-- `default_name = f"AOI \x7blen(st.session_state.gdf) + 1\x7d"`. -/
def default_name (gdf : GeoDataFrame) : String :=
  "AOI " ++ toString (gdf.rows.length + 1)

/-- `gdf.append(new_record, ignore_index=True)` followed by
`gdf.set_crs(epsg=4326, inplace=True)`: one row appended at the end, CRS
set to EPSG:4326.  (geopandas' `set_crs` would raise when overriding a
different existing CRS; in this application every collection carries
EPSG:4326, so the call is a plain assignment.) -/
def appendRecord (gdf : GeoDataFrame) (r : AOIRecord) : GeoDataFrame :=
  { rows := gdf.rows ++ [r], crs := some "EPSG:4326" }

/-- The three sequential writes at lines 137-139 (`to_file GPKG`,
`to_file GeoJSON`, `to_parquet`).  Each flag says whether that write
raises; a raising write leaves its file untouched and aborts the rest.
Returns the resulting disk and whether all writes completed. -/
def persistAll (gdf : GeoDataFrame) (d : Disk)
    (failGpkg failGeojson failParquet : Bool) : Disk × Bool :=
  if failGpkg then (d, false)
  else
    let d1 : Disk := { d with gpkg := some gdf }
    if failGeojson then (d1, false)
    else
      let d2 : Disk := { d1 with geojson := some gdf }
      if failParquet then (d2, false)
      else ({ d2 with parquet := some gdf }, true)

/-- Result of one execution of the save branch (lines 125-141). -/
structure SaveResult where
  session : GeoDataFrame
  disk : Disk
  completed : Bool
deriving DecidableEq

/-- The save branch: build the record, append it, store the updated
GeoDataFrame into `st.session_state.gdf`, then persist to the three
files.  The session assignment (line 134) precedes every write
(lines 137-139), so the session holds the appended collection even when a
write raises. -/
def doSave (gdf : GeoDataFrame) (r : AOIRecord) (d : Disk)
    (failGpkg failGeojson failParquet : Bool) : SaveResult :=
  let gdf' := appendRecord gdf r
  let pd := persistAll gdf' d failGpkg failGeojson failParquet
  { session := gdf', disk := pd.1, completed := pd.2 }

/-- The message the handler shows for one rerun. -/
inductive Msg where
  | info
  | errorEmpty
  | errorInvalid
  | drawnPending
  | saved (name : String)
  | writeCrashed
deriving DecidableEq

/-- Whole application state: the session GeoDataFrame and the disk. -/
structure AppState where
  session : GeoDataFrame
  disk : Disk
deriving DecidableEq

/-- Widget inputs of one rerun: the drawing buffer returned by
`st_folium` (`all_drawings`), the text-input override (`none` keeps the
prefilled default), whether the save button was clicked, the current UTC
time, and the three write-failure flags of this rerun. -/
structure RenderInput where
  drawings : List Geometry
  userName : Option String
  savePressed : Bool
  now : Nat
  failGpkg : Bool
  failGeojson : Bool
  failParquet : Bool

/-- One rerun of the handler block (lines 108-143): if the drawing buffer
is empty, show the info message; otherwise take the LAST drawing,
classify it, reject empty or invalid geometries with an error and no
state change, and on a click of the save button append and persist. -/
def render (s : AppState) (i : RenderInput) : AppState × Msg :=
  match i.drawings.getLast? with
  | none => (s, Msg.info)
  | some geom =>
    match classify geom with
    | Validity.Empty => (s, Msg.errorEmpty)
    | Validity.SelfInvalid => (s, Msg.errorInvalid)
    | Validity.Valid =>
      if i.savePressed then
        let nm := i.userName.getD (default_name s.session)
        let r : AOIRecord := { name := nm, timestamp := i.now, geometry := geom }
        let res := doSave s.session r s.disk i.failGpkg i.failGeojson i.failParquet
        ({ session := res.session, disk := res.disk },
         if res.completed then Msg.saved nm else Msg.writeCrashed)
      else (s, Msg.drawnPending)

/-- States reachable in a session started against disk `d0`: the initial
state is `load_gdf d0` (lines 37-38), and each user interaction performs
one `render`. -/
inductive Reachable (d0 : Disk) : AppState → Prop where
  | init : Reachable d0 { session := load_gdf d0, disk := d0 }
  | step (s : AppState) (i : RenderInput) :
      Reachable d0 s → Reachable d0 (render s i).1

/-- A record satisfying the spec's invariant: non-empty, self-valid
geometry. -/
def validRecord (r : AOIRecord) : Prop :=
  r.geometry.is_empty = false ∧ r.geometry.is_valid = true

instance (r : AOIRecord) : Decidable (validRecord r) := by
  unfold validRecord; infer_instance

/-- The collection invariant: every row is a valid record and the
collection carries the fixed coordinate reference system EPSG:4326. -/
def invariantHolds (g : GeoDataFrame) : Prop :=
  (∀ r ∈ g.rows, validRecord r) ∧ g.crs = some "EPSG:4326"

instance (g : GeoDataFrame) : Decidable (invariantHolds g) := by
  unfold invariantHolds; infer_instance

/-- Output of the viewer block (lines 148-182) for a non-empty
collection: the attribute table (`gdf.drop(columns="geometry")`), the
GeoJSON payload (`gdf.to_json()`, a function of the GeoDataFrame), and
the GeoPackage and Parquet payloads, which are the BYTES READ FROM DISK
(`open(GPKG_PATH, "rb")`, `open(PARQUET_PATH, "rb")`); `none` there
means the file is missing and the `open` call raises. -/
structure ViewerOut where
  table : List (String × Nat)
  geojsonPayload : GeoDataFrame
  gpkgPayload : Option GeoDataFrame
  parquetPayload : Option GeoDataFrame
deriving DecidableEq

/-- The viewer block: renders nothing when the collection is empty,
otherwise the table and the three download payloads. -/
def viewer (gdf : GeoDataFrame) (d : Disk) : Option ViewerOut :=
  if gdf.rows.isEmpty then none
  else
    some { table := gdf.rows.map (fun r => (r.name, r.timestamp)),
           geojsonPayload := gdf,
           gpkgPayload := d.gpkg,
           parquetPayload := d.parquet }

/-- Saving a list of records one after another (session part only). -/
def saveMany (gdf : GeoDataFrame) (rs : List AOIRecord) : GeoDataFrame :=
  rs.foldl appendRecord gdf

/-- Concrete geometries used as test inputs. -/
def emptyGeom : Geometry :=
  { is_empty := true, is_valid := true, coords := [] }

/-- A non-empty, self-valid triangle. -/
def validGeom : Geometry :=
  { is_empty := false, is_valid := true, coords := [(0, 0), (1, 0), (1, 1)] }

/-- A non-empty but self-intersecting (bowtie) shape. -/
def bowtieGeom : Geometry :=
  { is_empty := false, is_valid := false, coords := [(0, 0), (1, 1), (1, 0), (0, 1)] }

theorem classify_eq_empty_iff (g : Geometry) :
    classify g = Validity.Empty ↔ g.is_empty = true := by
  rcases g with ⟨e, v, c⟩
  cases e <;> cases v <;> simp [classify]

theorem classify_eq_selfinvalid_iff (g : Geometry) :
    classify g = Validity.SelfInvalid ↔ (g.is_empty = false ∧ g.is_valid = false) := by
  rcases g with ⟨e, v, c⟩
  cases e <;> cases v <;> simp [classify]

theorem classify_eq_valid_iff (g : Geometry) :
    classify g = Validity.Valid ↔ (g.is_empty = false ∧ g.is_valid = true) := by
  rcases g with ⟨e, v, c⟩
  cases e <;> cases v <;> simp [classify]

/-- C3: the Geometry Validator assigns exactly one of three outcomes to
every candidate geometry: `Empty` exactly when the geometry is empty,
`SelfInvalid` exactly when it is non-empty but fails the validity
predicate, and `Valid` exactly when it is non-empty and valid; in
particular every non-empty, self-valid geometry is classified `Valid`. -/
theorem C3_validator_trichotomy (g : Geometry) :
    (classify g = Validity.Empty ↔ g.is_empty = true) ∧
    (classify g = Validity.SelfInvalid ↔ (g.is_empty = false ∧ g.is_valid = false)) ∧
    (classify g = Validity.Valid ↔ (g.is_empty = false ∧ g.is_valid = true)) :=
  ⟨classify_eq_empty_iff g, classify_eq_selfinvalid_iff g, classify_eq_valid_iff g⟩

/-- C6: `load_gdf` tries GeoPackage first, then GeoJSON, then Parquet,
returning the first file that exists; when none of the three exists it
returns the empty collection with the declared schema and CRS EPSG:4326
(a normal state, not a failure: `load_gdf` is total and never errors). -/
theorem C6_loader_preference_order (d : Disk) :
    (∀ g, d.gpkg = some g → load_gdf d = g) ∧
    (d.gpkg = none → ∀ g, d.geojson = some g → load_gdf d = g) ∧
    (d.gpkg = none → d.geojson = none → ∀ g, d.parquet = some g → load_gdf d = g) ∧
    (d.gpkg = none → d.geojson = none → d.parquet = none →
      load_gdf d = emptyGdf ∧ (load_gdf d).rows = [] ∧
      (load_gdf d).crs = some "EPSG:4326") := by
  rcases d with ⟨pg, gj, pq⟩
  refine ⟨?_, ?_, ?_, ?_⟩
  · intro g hg
    simp only at hg
    subst hg
    rfl
  · intro h1 g hg
    simp only at h1 hg
    subst h1; subst hg
    rfl
  · intro h1 h2 g hg
    simp only at h1 h2 hg
    subst h1; subst h2; subst hg
    rfl
  · intro h1 h2 h3
    simp only at h1 h2 h3
    subst h1; subst h2; subst h3
    exact ⟨rfl, rfl, rfl⟩

/-- Witness for C6 at the concrete empty disk: the first-run state loads
the empty schema collection. -/
theorem C6_loader_preference_order_witness :
    load_gdf emptyDisk = emptyGdf ∧ (load_gdf emptyDisk).rows = [] ∧
    (load_gdf emptyDisk).crs = some "EPSG:4326" :=
  (C6_loader_preference_order emptyDisk).2.2.2 rfl rfl rfl

theorem saveMany_rows (gdf : GeoDataFrame) (rs : List AOIRecord) :
    (saveMany gdf rs).rows = gdf.rows ++ rs := by
  induction rs generalizing gdf with
  | nil => simp [saveMany]
  | cons r rs ih =>
    show (saveMany (appendRecord gdf r) rs).rows = gdf.rows ++ (r :: rs)
    rw [ih]
    simp [appendRecord]

/-- C4: every save appends exactly one record at the end, removing and
mutating nothing (the previous rows form an unchanged prefix); saving N
records starting from the empty collection yields exactly those N
records in the order saved. -/
theorem C4_append_only (gdf : GeoDataFrame) (r : AOIRecord) (d : Disk)
    (f1 f2 f3 : Bool) (rs : List AOIRecord) :
    (doSave gdf r d f1 f2 f3).session.rows = gdf.rows ++ [r] ∧
    (saveMany gdf rs).rows = gdf.rows ++ rs ∧
    (saveMany emptyGdf rs).rows = rs ∧ (saveMany emptyGdf rs).rows.length = rs.length := by
  refine ⟨?_, saveMany_rows gdf rs, ?_, ?_⟩
  · simp [doSave, appendRecord]
  · rw [saveMany_rows]; rfl
  · rw [saveMany_rows]; rfl

/-- A concrete application state used by witnesses. -/
def stateEx : AppState :=
  { session := emptyGdf, disk := emptyDisk }

/-- A rerun whose drawing buffer ends with an empty geometry and whose
save button is pressed. -/
def inputEmptyGeom : RenderInput :=
  { drawings := [emptyGeom], userName := none, savePressed := true, now := 0,
    failGpkg := false, failGeojson := false, failParquet := false }

/-- C5: when the validator rejects the candidate geometry (classified
`Empty` or `SelfInvalid`), the rerun changes nothing: the session
collection and the disk are exactly as before (so no record is appended
and no file write happens) and the user sees an inline error message. -/
theorem C5_rejection_no_state_change (s : AppState) (i : RenderInput) (g : Geometry)
    (hlast : i.drawings.getLast? = some g) (hnv : classify g ≠ Validity.Valid) :
    (render s i).1 = s ∧
    ((render s i).2 = Msg.errorEmpty ∨ (render s i).2 = Msg.errorInvalid) := by
  rcases h : classify g with _ | _ | _
  · simp [render, hlast, h]
  · simp [render, hlast, h]
  · exact absurd h hnv

/-- Witness for C5: an empty geometry with the save button pressed still
leaves the state untouched. -/
theorem C5_rejection_no_state_change_witness :
    (render stateEx inputEmptyGeom).1 = stateEx ∧
    ((render stateEx inputEmptyGeom).2 = Msg.errorEmpty ∨
     (render stateEx inputEmptyGeom).2 = Msg.errorInvalid) :=
  C5_rejection_no_state_change stateEx inputEmptyGeom emptyGeom (by decide) (by decide)

/-- C10: the session reference is updated with the appended record before
any of the three writes begins, and the writes run in the fixed order
GeoPackage, GeoJSON, Parquet with no rollback: whatever write fails, the
session still holds the new record; if the GeoPackage write fails no file
changes; if the GeoJSON write fails only the GeoPackage file holds the
new collection; if the Parquet write fails the GeoPackage and GeoJSON
files hold it and the Parquet file is untouched; if nothing fails all
three files hold the new collection. -/
theorem C10_partial_write_no_rollback (gdf : GeoDataFrame) (r : AOIRecord)
    (d : Disk) (f2 f3 : Bool) :
    (∀ f1 : Bool, (doSave gdf r d f1 f2 f3).session = appendRecord gdf r) ∧
    (doSave gdf r d true f2 f3).disk = d ∧
    (doSave gdf r d true f2 f3).completed = false ∧
    (doSave gdf r d false true f3).disk = { d with gpkg := some (appendRecord gdf r) } ∧
    (doSave gdf r d false true f3).completed = false ∧
    (doSave gdf r d false false true).disk =
      { d with gpkg := some (appendRecord gdf r),
               geojson := some (appendRecord gdf r) } ∧
    (doSave gdf r d false false true).completed = false ∧
    (doSave gdf r d false false false).disk =
      { gpkg := some (appendRecord gdf r), geojson := some (appendRecord gdf r),
        parquet := some (appendRecord gdf r) } ∧
    (doSave gdf r d false false false).completed = true := by
  refine ⟨?_, ?_, ?_, ?_, ?_, ?_, ?_, ?_, ?_⟩
  · intro f1; cases f1 <;> cases f2 <;> cases f3 <;> rfl
  all_goals rfl

/-- `gdf.to_file(GPKG_PATH, driver="GPKG")` in isolation. -/
def writeGpkg (d : Disk) (g : GeoDataFrame) : Disk :=
  { d with gpkg := some g }

/-- `gdf.to_file(GEOJSON_PATH, driver="GeoJSON")` in isolation. -/
def writeGeojson (d : Disk) (g : GeoDataFrame) : Disk :=
  { d with geojson := some g }

/-- `gdf.to_parquet(PARQUET_PATH)` in isolation. -/
def writeParquet (d : Disk) (g : GeoDataFrame) : Disk :=
  { d with parquet := some g }

/-- C7: writing a collection to any single one of the three formats (on a
disk where no higher-preference file shadows it) and reloading through
`load_gdf` returns a collection with the same records — in this model
serialization is faithful, so record count, names and geometries are
preserved exactly; moreover after a completed save, reloading the disk
returns exactly the new session collection. -/
theorem C7_roundtrip (g : GeoDataFrame) (gdf : GeoDataFrame) (r : AOIRecord) (d : Disk) :
    load_gdf (writeGpkg emptyDisk g) = g ∧
    load_gdf (writeGeojson emptyDisk g) = g ∧
    load_gdf (writeParquet emptyDisk g) = g ∧
    (load_gdf (writeGpkg emptyDisk g)).rows.length = g.rows.length ∧
    (load_gdf (writeGeojson emptyDisk g)).rows.map AOIRecord.name =
      g.rows.map AOIRecord.name ∧
    (load_gdf (writeParquet emptyDisk g)).rows.map AOIRecord.geometry =
      g.rows.map AOIRecord.geometry ∧
    load_gdf (doSave gdf r d false false false).disk =
      (doSave gdf r d false false false).session := by
  exact ⟨rfl, rfl, rfl, rfl, rfl, rfl, rfl⟩

/-- C8: only the last entry of the drawing buffer is consumed: two reruns
whose drawing buffers have the same last entry (all other inputs equal)
behave identically, whatever the earlier entries are; and when a save
happens, the appended record's geometry is exactly the buffer's last
entry — earlier entries are never validated or saved. -/
theorem C8_only_last_drawing (s : AppState) (i1 i2 : RenderInput)
    (hlast : i1.drawings.getLast? = i2.drawings.getLast?)
    (hn : i1.userName = i2.userName) (hs : i1.savePressed = i2.savePressed)
    (ht : i1.now = i2.now) (h1 : i1.failGpkg = i2.failGpkg)
    (h2 : i1.failGeojson = i2.failGeojson) (h3 : i1.failParquet = i2.failParquet) :
    render s i1 = render s i2 ∧
    (∀ g, i1.drawings.getLast? = some g → classify g = Validity.Valid →
      i1.savePressed = true →
      ((render s i1).1.session).rows =
        s.session.rows ++
          [{ name := i1.userName.getD (default_name s.session),
             timestamp := i1.now, geometry := g }]) := by
  constructor
  · unfold render
    rw [hlast, hn, hs, ht, h1, h2, h3]
  · intro g hg hv hp
    simp [render, hg, hv, hp, doSave, appendRecord]

/-- A rerun whose drawing buffer holds an old bowtie and then a valid
triangle. -/
def twoDrawInput : RenderInput :=
  { drawings := [bowtieGeom, validGeom], userName := none, savePressed := true,
    now := 5, failGpkg := false, failGeojson := false, failParquet := false }

/-- The same rerun with only the last drawing in the buffer. -/
def oneDrawInput : RenderInput :=
  { drawings := [validGeom], userName := none, savePressed := true,
    now := 5, failGpkg := false, failGeojson := false, failParquet := false }

/-- Witness for C8: a stale bowtie at the head of the buffer changes
nothing, and the saved geometry is the last drawing. -/
theorem C8_only_last_drawing_witness :
    render stateEx twoDrawInput = render stateEx oneDrawInput ∧
    ((render stateEx twoDrawInput).1.session).rows =
      stateEx.session.rows ++
        [{ name := twoDrawInput.userName.getD (default_name stateEx.session),
           timestamp := twoDrawInput.now, geometry := validGeom }] :=
  have h := C8_only_last_drawing stateEx twoDrawInput oneDrawInput
    (by decide) rfl rfl rfl rfl rfl rfl
  ⟨h.1, h.2 validGeom (by decide) (by decide) rfl⟩

/-- A save rerun with an explicit user-chosen name. -/
def saveInputX : RenderInput :=
  { drawings := [validGeom], userName := some "X", savePressed := true, now := 0,
    failGpkg := false, failGeojson := false, failParquet := false }

/-- The same save rerun later (different capture time, same name). -/
def saveInputY : RenderInput :=
  { drawings := [validGeom], userName := some "X", savePressed := true, now := 1,
    failGpkg := false, failGeojson := false, failParquet := false }

/-- C9: with no user override, the name given to the nth saved record is
the auto-generated default "AOI n", where n is the collection's size
before the append plus one; and names are not guaranteed unique — a
reachable state holds two distinct records with the same name. -/
theorem C9_default_name_formula (s : AppState) (i : RenderInput) (g : Geometry)
    (hlast : i.drawings.getLast? = some g) (hv : classify g = Validity.Valid)
    (hp : i.savePressed = true) (hn : i.userName = none) :
    default_name s.session = "AOI " ++ toString (s.session.rows.length + 1) ∧
    ((render s i).1.session).rows =
      s.session.rows ++
        [{ name := "AOI " ++ toString (s.session.rows.length + 1),
           timestamp := i.now, geometry := g }] ∧
    (∃ s2 : AppState, Reachable emptyDisk s2 ∧
      ∃ r1 ∈ s2.session.rows, ∃ r2 ∈ s2.session.rows,
        r1 ≠ r2 ∧ r1.name = r2.name) := by
  refine ⟨rfl, ?_, ?_⟩
  · simp [render, hlast, hv, hp, hn, doSave, appendRecord, default_name]
  · refine ⟨(render (render { session := load_gdf emptyDisk, disk := emptyDisk }
        saveInputX).1 saveInputY).1,
      Reachable.step _ saveInputY (Reachable.step _ saveInputX Reachable.init), ?_⟩
    decide

/-- A save rerun keeping the prefilled default name. -/
def defaultNameInput : RenderInput :=
  { drawings := [validGeom], userName := none, savePressed := true, now := 7,
    failGpkg := false, failGeojson := false, failParquet := false }

/-- Witness for C9: saving into the empty collection with the default
name produces the record named "AOI 1". -/
theorem C9_default_name_formula_witness :
    default_name stateEx.session = "AOI " ++ toString (stateEx.session.rows.length + 1) ∧
    ((render stateEx defaultNameInput).1.session).rows =
      stateEx.session.rows ++
        [{ name := "AOI " ++ toString (stateEx.session.rows.length + 1),
           timestamp := defaultNameInput.now, geometry := validGeom }] :=
  have h := C9_default_name_formula stateEx defaultNameInput validGeom
    (by decide) (by decide) rfl rfl
  ⟨h.1, h.2.1⟩

/-- A record carrying an empty geometry, as an external tool could write
into one of the dataset files. -/
def badRecord : AOIRecord :=
  { name := "bad", timestamp := 0, geometry := emptyGeom }

/-- A disk whose GeoPackage file holds that record. -/
def badDisk : Disk :=
  { gpkg := some { rows := [badRecord], crs := some "EPSG:4326" },
    geojson := none, parquet := none }

/-- C1 counterexample: it is NOT true that every reachable state
satisfies the invariant regardless of how the collection was produced —
`load_gdf` performs no validation, so a session started against a disk
file holding an empty geometry is immediately in violation. -/
theorem C1_counterexample :
    ¬ (∀ (d0 : Disk) (s : AppState), Reachable d0 s → invariantHolds s.session) := by
  intro h
  exact absurd
    (h badDisk { session := load_gdf badDisk, disk := badDisk } Reachable.init)
    (by decide)

theorem render_preserves_invariant (s : AppState) (i : RenderInput)
    (h : invariantHolds s.session) : invariantHolds (render s i).1.session := by
  unfold render
  split
  · exact h
  · rename_i geom hgeom
    split
    · exact h
    · exact h
    · rename_i hv
      split
      · refine ⟨?_, ?_⟩
        · intro r hr
          simp only [doSave, appendRecord, List.mem_append, List.mem_singleton] at hr
          rcases hr with hmem | rfl
          · exact h.1 r hmem
          · have hg := (classify_eq_valid_iff geom).mp hv
            exact ⟨hg.1, hg.2⟩
        · rfl
      · exact h

/-- C1 (amended): the validator runs strictly before every insertion
performed by a save, and every appended collection carries EPSG:4326, so
every rerun preserves the invariant (all records non-empty and
self-valid, CRS fixed to EPSG:4326); hence every reachable state of a
session satisfies it PROVIDED the collection loaded at startup already
does.  (The loader itself validates nothing, so the proviso cannot be
dropped — see the counterexample.) -/
theorem C1_invariant_preserved_from_valid_load (d0 : Disk) (s : AppState)
    (h0 : invariantHolds (load_gdf d0)) (hr : Reachable d0 s) :
    invariantHolds s.session := by
  induction hr with
  | init => exact h0
  | step s' i _ ih => exact render_preserves_invariant s' i ih

/-- Witness for C1 at the first-run disk: the freshly loaded empty
collection satisfies the invariant. -/
theorem C1_invariant_preserved_from_valid_load_witness :
    invariantHolds ({ session := load_gdf emptyDisk, disk := emptyDisk } : AppState).session :=
  C1_invariant_preserved_from_valid_load emptyDisk _ (by decide) Reachable.init

/-- A one-record collection. -/
def oneRecordGdf : GeoDataFrame :=
  { rows := [{ name := "A", timestamp := 0, geometry := validGeom }],
    crs := some "EPSG:4326" }

/-- A disk whose three files all hold that collection. -/
def diskWithFiles : Disk :=
  { gpkg := some oneRecordGdf, geojson := some oneRecordGdf,
    parquet := some oneRecordGdf }

/-- C2 counterexample: the viewer's output is NOT a function of the
in-memory collection alone — the GeoPackage and Parquet download payloads
are bytes read from the on-disk files at render time, so the same
in-memory collection yields different outputs over different disks (and
the read raises when a file is missing). -/
theorem C2_counterexample :
    ¬ (∀ (gdf : GeoDataFrame) (d1 d2 : Disk), viewer gdf d1 = viewer gdf d2) := by
  intro h
  exact absurd (h oneRecordGdf diskWithFiles emptyDisk) (by decide)

/-- C2 (amended): the attribute table and the GeoJSON download payload
are functions of the in-memory collection only (`gdf.to_json()` is
computed from the session GeoDataFrame), while the GeoPackage and
Parquet download payloads are exactly the current contents of the
corresponding on-disk files. -/
theorem C2_viewer_table_geojson_memory_only (gdf : GeoDataFrame) (d1 d2 : Disk) :
    Option.map ViewerOut.table (viewer gdf d1) =
      Option.map ViewerOut.table (viewer gdf d2) ∧
    Option.map ViewerOut.geojsonPayload (viewer gdf d1) =
      Option.map ViewerOut.geojsonPayload (viewer gdf d2) ∧
    Option.map ViewerOut.gpkgPayload (viewer gdf d1) =
      Option.map (fun _ => d1.gpkg) (viewer gdf d1) ∧
    Option.map ViewerOut.parquetPayload (viewer gdf d1) =
      Option.map (fun _ => d1.parquet) (viewer gdf d1) := by
  unfold viewer
  by_cases h : gdf.rows.isEmpty <;> simp [h]
